import Mathlib

/-!
Shallow embedding of the financial-report engine
(`src/core/simple_models.py`, `src/core/simple_transforms.py`).
Python floats are modelled as rationals (ℚ), exceptions as `Except String`.
-/

namespace RapportFinancier

/-- `Sens` enum from simple_models.py: direction of an accounting line. -/
inductive Sens where
  | DEBIT
  | CREDIT
deriving DecidableEq, Repr

/-- `LigneCompte` dataclass: one accounting line. -/
structure LigneCompte where
  code_compte : String
  libelle : String
  classe : ℤ
  sens : Sens
  montant : ℚ
  periode : String
deriving DecidableEq, Repr

/-- `LigneCompte.__post_init__`: validation on construction.
Returns the entry unchanged when all rules pass, the error message otherwise. -/
def mkLigneCompte (code_compte libelle : String) (classe : ℤ) (sens : Sens)
    (montant : ℚ) (periode : String) : Except String LigneCompte :=
  if code_compte = "" ∨ code_compte.length < 3 then
    Except.error "Code compte invalide"
  else if ¬ (1 ≤ classe ∧ classe ≤ 9) then
    Except.error "Classe doit etre entre 1 et 9"
  else if montant < 0 then
    Except.error "Montant doit etre positif"
  else
    Except.ok ⟨code_compte, libelle, classe, sens, montant, periode⟩

/-- The invariants `LigneCompte.__post_init__` enforces. -/
def LigneValide (l : LigneCompte) : Prop :=
  3 ≤ l.code_compte.length ∧ 1 ≤ l.classe ∧ l.classe ≤ 9 ∧ 0 ≤ l.montant

instance (l : LigneCompte) : Decidable (LigneValide l) := by
  unfold LigneValide; infer_instance

/-- `JeuDonnees` dataclass: a set of accounting lines with a period and a company. -/
structure JeuDonnees where
  lignes : List LigneCompte
  periode : String
  entreprise : String
deriving DecidableEq, Repr

/-- Model of `sum(l.montant for l in lignes if p(l))`. -/
def sommeSi (p : LigneCompte → Bool) : List LigneCompte → ℚ
  | [] => 0
  | l :: ls => (if p l then l.montant else 0) + sommeSi p ls

/-- `sum(l.montant for l in lignes if l.sens == Sens.DEBIT)`. -/
def total_debit (ls : List LigneCompte) : ℚ :=
  sommeSi (fun l => l.sens == Sens.DEBIT) ls

/-- `sum(l.montant for l in lignes if l.sens == Sens.CREDIT)`. -/
def total_credit (ls : List LigneCompte) : ℚ :=
  sommeSi (fun l => l.sens == Sens.CREDIT) ls

/-- The balance tolerance `0.01` used by `JeuDonnees.__post_init__`. -/
def epsilon : ℚ := 1 / 100

/-- `JeuDonnees.__post_init__`: non-empty check then debit/credit balance check. -/
def mkJeuDonnees (lignes : List LigneCompte) (periode entreprise : String) :
    Except String JeuDonnees :=
  if lignes.isEmpty then
    Except.error "Le jeu de donnees doit contenir au moins une ligne"
  else if |total_debit lignes - total_credit lignes| > epsilon then
    Except.error "Desequilibre"
  else
    Except.ok ⟨lignes, periode, entreprise⟩

/-- `JeuDonnees.get_total_classe`. -/
def get_total_classe (d : JeuDonnees) (classe : ℤ) : ℚ :=
  sommeSi (fun l => l.classe == classe) d.lignes

/-- `JeuDonnees.get_total_sens`. -/
def get_total_sens (d : JeuDonnees) (sens : Sens) : ℚ :=
  sommeSi (fun l => l.sens == sens) d.lignes

/-- `str.startswith` on lists of characters. -/
def estPrefixeDe : List Char → List Char → Bool
  | [], _ => true
  | _ :: _, [] => false
  | p :: ps, c :: cs => p == c && estPrefixeDe ps cs

/-- `s.startswith(pre)` for strings. -/
def debutePar (s pre : String) : Bool :=
  estPrefixeDe pre.data s.data

/-- `BilanFonctionnel` dataclass. -/
structure BilanFonctionnel where
  emplois_stables : ℚ
  ressources_stables : ℚ
  frng : ℚ
  actifs_circulants : ℚ
  passifs_circulants : ℚ
  bfr : ℚ
  tresorerie_active : ℚ
  tresorerie_passive : ℚ
  tresorerie_nette : ℚ
  periode : String
deriving DecidableEq, Repr

/-- `BilanFinancier` dataclass. -/
structure BilanFinancier where
  immobilisations_nettes : ℚ
  stocks : ℚ
  creances_clients : ℚ
  autres_creances : ℚ
  tresorerie_active : ℚ
  total_actif : ℚ
  capital_social : ℚ
  reserves : ℚ
  resultat_net : ℚ
  capitaux_propres : ℚ
  dettes_financieres_lt : ℚ
  dettes_fournisseurs : ℚ
  autres_dettes_ct : ℚ
  tresorerie_passive : ℚ
  total_passif : ℚ
  periode : String
deriving DecidableEq, Repr

/-- `PatrimoineEntreprise` dataclass; the ratio fields are `Optional[float]`. -/
structure PatrimoineEntreprise where
  actifs_economiques : ℚ
  dettes_financieres : ℚ
  actif_net_comptable : ℚ
  capitaux_propres_retraites : ℚ
  patrimoine_net : ℚ
  periode : String
  ratio_endettement : Option ℚ := none
  ratio_solvabilite : Option ℚ := none
  ratio_liquidite : Option ℚ := none
deriving DecidableEq, Repr

/-- `SimpleReportCalculator.calculer_bilan_fonctionnel`. -/
def calculer_bilan_fonctionnel (donnees : JeuDonnees) : BilanFonctionnel :=
  let emplois_stables := sommeSi
    (fun l => l.classe == 2 && l.sens == Sens.DEBIT) donnees.lignes
  let ressources_stables := sommeSi
    (fun l => (l.classe == 1 || l.classe == 5) && l.sens == Sens.CREDIT) donnees.lignes
  let frng := ressources_stables - emplois_stables
  let actifs_circulants := sommeSi
    (fun l => (l.classe == 3 || l.classe == 4) && l.sens == Sens.DEBIT) donnees.lignes
  let passifs_circulants := sommeSi
    (fun l => (l.classe == 3 || l.classe == 4) && l.sens == Sens.CREDIT) donnees.lignes
  let bfr := actifs_circulants - passifs_circulants
  let tresorerie_active := sommeSi
    (fun l => l.classe == 5 && l.sens == Sens.DEBIT) donnees.lignes
  let tresorerie_passive := sommeSi
    (fun l => l.classe == 5 && l.sens == Sens.CREDIT) donnees.lignes
  let tresorerie_nette := tresorerie_active - tresorerie_passive
  { emplois_stables := emplois_stables
    ressources_stables := ressources_stables
    frng := frng
    actifs_circulants := actifs_circulants
    passifs_circulants := passifs_circulants
    bfr := bfr
    tresorerie_active := tresorerie_active
    tresorerie_passive := tresorerie_passive
    tresorerie_nette := tresorerie_nette
    periode := donnees.periode }

/-- `SimpleReportCalculator.calculer_bilan_financier`. -/
def calculer_bilan_financier (donnees : JeuDonnees) : BilanFinancier :=
  let immobilisations_nettes := sommeSi
    (fun l => l.classe == 2 && l.sens == Sens.DEBIT) donnees.lignes
  let stocks := sommeSi
    (fun l => l.classe == 3 && l.sens == Sens.DEBIT) donnees.lignes
  let creances_clients := sommeSi
    (fun l => l.classe == 4 && l.sens == Sens.DEBIT && debutePar l.code_compte "342")
    donnees.lignes
  let autres_creances := sommeSi
    (fun l => l.classe == 4 && l.sens == Sens.DEBIT && !debutePar l.code_compte "342")
    donnees.lignes
  let tresorerie_active := sommeSi
    (fun l => l.classe == 5 && l.sens == Sens.DEBIT) donnees.lignes
  let total_actif := immobilisations_nettes + stocks + creances_clients +
    autres_creances + tresorerie_active
  let capital_social := sommeSi
    (fun l => l.classe == 1 && l.sens == Sens.CREDIT && debutePar l.code_compte "111")
    donnees.lignes
  let reserves := sommeSi
    (fun l => l.classe == 1 && l.sens == Sens.CREDIT && debutePar l.code_compte "11"
      && !debutePar l.code_compte "111") donnees.lignes
  let resultat_net := sommeSi
    (fun l => (l.classe == 6 || l.classe == 7) && l.sens == Sens.CREDIT) donnees.lignes
    - sommeSi
    (fun l => (l.classe == 6 || l.classe == 7) && l.sens == Sens.DEBIT) donnees.lignes
  let capitaux_propres := capital_social + reserves + max 0 resultat_net
  let dettes_financieres_lt := sommeSi
    (fun l => l.classe == 1 && l.sens == Sens.CREDIT && debutePar l.code_compte "14")
    donnees.lignes
  let dettes_fournisseurs := sommeSi
    (fun l => l.classe == 4 && l.sens == Sens.CREDIT && debutePar l.code_compte "441")
    donnees.lignes
  let autres_dettes_ct := sommeSi
    (fun l => l.classe == 4 && l.sens == Sens.CREDIT && !debutePar l.code_compte "441")
    donnees.lignes
  let tresorerie_passive := sommeSi
    (fun l => l.classe == 5 && l.sens == Sens.CREDIT) donnees.lignes
  let total_passif := capitaux_propres + dettes_financieres_lt + dettes_fournisseurs +
    autres_dettes_ct + tresorerie_passive
  { immobilisations_nettes := immobilisations_nettes
    stocks := stocks
    creances_clients := creances_clients
    autres_creances := autres_creances
    tresorerie_active := tresorerie_active
    total_actif := total_actif
    capital_social := capital_social
    reserves := reserves
    resultat_net := resultat_net
    capitaux_propres := capitaux_propres
    dettes_financieres_lt := dettes_financieres_lt
    dettes_fournisseurs := dettes_fournisseurs
    autres_dettes_ct := autres_dettes_ct
    tresorerie_passive := tresorerie_passive
    total_passif := total_passif
    periode := donnees.periode }

/-- `SimpleReportCalculator.calculer_patrimoine`. -/
def calculer_patrimoine (donnees : JeuDonnees) : PatrimoineEntreprise :=
  let actifs_economiques := sommeSi
    (fun l => (l.classe == 2 || l.classe == 3 || l.classe == 4 || l.classe == 5)
      && l.sens == Sens.DEBIT) donnees.lignes
  let dettes_financieres := sommeSi
    (fun l => l.classe == 1 && l.sens == Sens.CREDIT && !debutePar l.code_compte "11")
    donnees.lignes
  let actif_net_comptable := actifs_economiques - dettes_financieres
  let capitaux_propres_retraites := sommeSi
    (fun l => l.classe == 1 && l.sens == Sens.CREDIT && debutePar l.code_compte "11")
    donnees.lignes
  let patrimoine_net := actif_net_comptable
  let ratio_endettement :=
    if actifs_economiques > 0 then dettes_financieres / actifs_economiques else 0
  let ratio_solvabilite :=
    if dettes_financieres > 0 then capitaux_propres_retraites / dettes_financieres else 0
  let ratio_liquidite : ℚ := 1
  { actifs_economiques := actifs_economiques
    dettes_financieres := dettes_financieres
    actif_net_comptable := actif_net_comptable
    capitaux_propres_retraites := capitaux_propres_retraites
    patrimoine_net := patrimoine_net
    periode := donnees.periode
    ratio_endettement := some ratio_endettement
    ratio_solvabilite := some ratio_solvabilite
    ratio_liquidite := some ratio_liquidite }

/-- The tagged union of the three report variants the analyzer dispatches on. -/
inductive Rapport where
  | fonctionnel (b : BilanFonctionnel)
  | financier (b : BilanFinancier)
  | patrimoine (p : PatrimoineEntreprise)
deriving DecidableEq, Repr

/-- The analysis record: `points_cles` / `recommandations` / `alertes`. -/
structure Analyse where
  points_cles : List String
  recommandations : List String
  alertes : List String
deriving DecidableEq, Repr

/-- Python truthiness of an `Optional[float]`: `None` and `0` are falsy. -/
def estVraiOpt : Option ℚ → Bool
  | none => false
  | some x => x != 0

/-- `SimpleReportCalculator.analyser_rapport`.  Division is modelled as fallible:
the `ratio_autonomie` line divides by `total_passif` with no zero guard, so a
`ZeroDivisionError` is possible and the result is an `Except`. -/
def analyser_rapport (rapport : Rapport) : Except String Analyse :=
  match rapport with
  | Rapport.fonctionnel b =>
    let pc1 := if b.frng > 0 then
      ["FRNG positif : bonne couverture des emplois stables"] else []
    let al1 := if b.frng > 0 then []
      else ["FRNG negatif : dependance aux financements court terme"]
    let re1 := if b.frng > 0 then [] else ["Renforcer les ressources stables"]
    let pc2 := if b.bfr > 0 then ["BFR positif de " ++ toString b.bfr] else []
    let re2 := if b.bfr > 0 then ["Optimiser le cycle d\x27exploitation"] else []
    let al2 := if b.tresorerie_nette < 0 then ["Tresorerie negative"] else []
    let re3 := if b.tresorerie_nette < 0 then
      ["Ameliorer la gestion de tresorerie"] else []
    Except.ok ⟨pc1 ++ pc2, re1 ++ re2 ++ re3, al1 ++ al2⟩
  | Rapport.financier b =>
    if b.total_actif > 0 then
      let ratio_endettement := (b.total_passif - b.capitaux_propres) / b.total_actif
      let al1 := if ratio_endettement > 7/10 then ["Taux d\x27endettement eleve"] else []
      let re1 := if ratio_endettement > 7/10 then ["Reduire l\x27endettement"] else []
      if b.total_passif = 0 then
        Except.error "ZeroDivisionError"
      else
        let ratio_autonomie := b.capitaux_propres / b.total_passif
        let al2 := if ratio_autonomie < 3/10 then ["Faible autonomie financiere"] else []
        Except.ok ⟨[], re1, al1 ++ al2⟩
    else
      Except.ok ⟨[], [], []⟩
  | Rapport.patrimoine p =>
    let al1 := if estVraiOpt p.ratio_endettement
        && decide ((p.ratio_endettement.getD 0) > 1/2) then
      ["Endettement patrimonial eleve"] else []
    let al2 := if estVraiOpt p.ratio_solvabilite
        && decide ((p.ratio_solvabilite.getD 0) < 1) then
      ["Solvabilite compromise"] else []
    Except.ok ⟨[], [], al1 ++ al2⟩

/-- `True` exactly on `Except.error`. -/
def estErreur {ε α : Type} : Except ε α → Bool
  | Except.error _ => true
  | Except.ok _ => false

/-- The nine entries of the end-to-end scenario. -/
def lignesScenario : List LigneCompte :=
  [⟨"1111", "Capital social", 1, Sens.CREDIT, 100000, "2024"⟩,
   ⟨"2111", "Immobilisations", 2, Sens.DEBIT, 5000, "2024"⟩,
   ⟨"2340", "Materiel", 2, Sens.DEBIT, 25000, "2024"⟩,
   ⟨"3111", "Stocks", 3, Sens.DEBIT, 15000, "2024"⟩,
   ⟨"3421", "Clients", 4, Sens.DEBIT, 20000, "2024"⟩,
   ⟨"4411", "Fournisseurs", 4, Sens.CREDIT, 12000, "2024"⟩,
   ⟨"5141", "Banque", 5, Sens.DEBIT, 50000, "2024"⟩,
   ⟨"5514", "Caisse", 5, Sens.DEBIT, 7000, "2024"⟩,
   ⟨"1191", "Reserves", 1, Sens.CREDIT, 10000, "2024"⟩]

/-- The scenario dataset. -/
def donneesScenario : JeuDonnees := ⟨lignesScenario, "2024", "Entreprise"⟩

/-- The two-entry dataset that sends the analyzer into a division by zero:
`total_actif = 100 > 0` but every passif bucket is empty. -/
def lignesPassifNul : List LigneCompte :=
  [⟨"211", "Immobilisation", 2, Sens.DEBIT, 100, "2024"⟩,
   ⟨"191", "Emprunt obligataire", 1, Sens.CREDIT, 100, "2024"⟩]

/-- The dataset built from `lignesPassifNul`. -/
def donneesPassifNul : JeuDonnees := ⟨lignesPassifNul, "2024", "Entreprise"⟩

/-- Shape of datasets for which the functional identity holds: classes 1–5
only, every class-1 entry CREDIT, every class-2 entry DEBIT, every class-5
entry DEBIT. -/
def EntreeFonctionnelle (l : LigneCompte) : Prop :=
  (l.classe = 1 ∨ l.classe = 2 ∨ l.classe = 3 ∨ l.classe = 4 ∨ l.classe = 5) ∧
  (l.classe = 1 → l.sens = Sens.CREDIT) ∧
  (l.classe = 2 → l.sens = Sens.DEBIT) ∧
  (l.classe = 5 → l.sens = Sens.DEBIT)

instance (l : LigneCompte) : Decidable (EntreeFonctionnelle l) := by
  unfold EntreeFonctionnelle; infer_instance

/-- A valid, exactly balanced dataset with a class-5 CREDIT entry. -/
def lignesTresoCredit : List LigneCompte :=
  [⟨"511", "Banque", 5, Sens.DEBIT, 100, "2024"⟩,
   ⟨"519", "Concours bancaire", 5, Sens.CREDIT, 100, "2024"⟩]

/-- The dataset built from `lignesTresoCredit`. -/
def donneesTresoCredit : JeuDonnees := ⟨lignesTresoCredit, "2024", "Entreprise"⟩

/-- Shape of datasets for which the financial balance holds: classes 1–5 only,
class-1 entries CREDIT with codes starting "11" or "14", class-2 and class-3
entries DEBIT. -/
def EntreeFinanciere (l : LigneCompte) : Prop :=
  (l.classe = 1 ∨ l.classe = 2 ∨ l.classe = 3 ∨ l.classe = 4 ∨ l.classe = 5) ∧
  (l.classe = 1 → l.sens = Sens.CREDIT) ∧
  (l.classe = 2 → l.sens = Sens.DEBIT) ∧
  (l.classe = 3 → l.sens = Sens.DEBIT) ∧
  (l.classe = 1 → debutePar l.code_compte "11" = true
    ∨ debutePar l.code_compte "14" = true)

instance (l : LigneCompte) : Decidable (EntreeFinanciere l) := by
  unfold EntreeFinanciere; infer_instance

/-- A valid dataset with a class-3 CREDIT entry, which no passif bucket of the
financial report collects. -/
def lignesStockCredit : List LigneCompte :=
  [⟨"311", "Stocks", 3, Sens.CREDIT, 50, "2024"⟩,
   ⟨"511", "Banque", 5, Sens.DEBIT, 50, "2024"⟩]

/-- The dataset built from `lignesStockCredit`. -/
def donneesStockCredit : JeuDonnees := ⟨lignesStockCredit, "2024", "Entreprise"⟩

/-! ### Lemmas and claim theorems -/

/-- A code starting with "111" also starts with "11". -/
lemma debutePar_111_11 {s : String} (h : debutePar s "111" = true) :
    debutePar s "11" = true := by
  have h3 : "111".data = ['1', '1', '1'] := rfl
  have h2 : "11".data = ['1', '1'] := rfl
  unfold debutePar at h ⊢
  rw [h3] at h; rw [h2]
  rcases hs : s.data with _ | ⟨c1, _ | ⟨c2, t⟩⟩ <;> rw [hs] at h <;>
    simp [estPrefixeDe] at h ⊢ <;> tauto

/-- A code starting with "14" does not start with "11". -/
lemma debutePar_14_non11 {s : String} (h : debutePar s "14" = true) :
    debutePar s "11" = false := by
  have h4 : "14".data = ['1', '4'] := rfl
  have h2 : "11".data = ['1', '1'] := rfl
  unfold debutePar at h ⊢
  rw [h4] at h; rw [h2]
  rcases hs : s.data with _ | ⟨c1, _ | ⟨c2, t⟩⟩ <;> rw [hs] at h <;>
      simp [estPrefixeDe] at h ⊢
  obtain ⟨hc1, hc2⟩ := h
  subst hc1; subst hc2
  simp

/-- A code starting with "11" does not start with "14". -/
lemma debutePar_11_non14 {s : String} (h : debutePar s "11" = true) :
    debutePar s "14" = false := by
  have h4 : "14".data = ['1', '4'] := rfl
  have h2 : "11".data = ['1', '1'] := rfl
  unfold debutePar at h ⊢
  rw [h2] at h; rw [h4]
  rcases hs : s.data with _ | ⟨c1, _ | ⟨c2, t⟩⟩ <;> rw [hs] at h <;>
      simp [estPrefixeDe] at h ⊢
  obtain ⟨hc1, hc2⟩ := h
  subst hc1; subst hc2
  simp

/-- A code starting with "14" does not start with "111". -/
lemma debutePar_14_non111 {s : String} (h : debutePar s "14" = true) :
    debutePar s "111" = false := by
  cases h1 : debutePar s "111"
  · rfl
  · rw [debutePar_11_non14 (debutePar_111_11 h1)] at h
    exact absurd h (by simp)

/-- A filtered sum of non-negative amounts is non-negative. -/
lemma sommeSi_nonneg (p : LigneCompte → Bool) (ls : List LigneCompte)
    (h : ∀ l ∈ ls, 0 ≤ l.montant) : 0 ≤ sommeSi p ls := by
  induction ls with
  | nil => simp [sommeSi]
  | cons l ls ih =>
    simp only [sommeSi]
    have h0 := h l (List.mem_cons_self l ls)
    have hrest := ih (fun x hx => h x (List.mem_cons_of_mem l hx))
    have : (0 : ℚ) ≤ if p l then l.montant else 0 := by
      split
      · exact h0
      · exact le_refl 0
    linarith

/-- `capital_social` and `reserves` partition the class-1 CREDIT entries whose
code starts with "11". -/
lemma somme_capital_reserves (ls : List LigneCompte) :
    sommeSi (fun l => l.classe == 1 && l.sens == Sens.CREDIT
      && debutePar l.code_compte "111") ls
    + sommeSi (fun l => l.classe == 1 && l.sens == Sens.CREDIT
      && debutePar l.code_compte "11" && !debutePar l.code_compte "111") ls
    = sommeSi (fun l => l.classe == 1 && l.sens == Sens.CREDIT
      && debutePar l.code_compte "11") ls := by
  induction ls with
  | nil => simp [sommeSi]
  | cons l ls ih =>
    simp only [sommeSi]
    have hpt : (if (l.classe == 1 && l.sens == Sens.CREDIT
          && debutePar l.code_compte "111") then l.montant else 0)
        + (if (l.classe == 1 && l.sens == Sens.CREDIT
          && debutePar l.code_compte "11" && !debutePar l.code_compte "111")
          then l.montant else 0)
        = (if (l.classe == 1 && l.sens == Sens.CREDIT
          && debutePar l.code_compte "11") then l.montant else 0) := by
      cases h111 : debutePar l.code_compte "111"
      · simp [h111]
      · simp [h111, debutePar_111_11 h111]
    linarith [hpt, ih]

/-- The five actif buckets of the financial report partition the DEBIT entries
of classes 2, 3, 4, 5. -/
lemma somme_actif (ls : List LigneCompte) :
    sommeSi (fun l => l.classe == 2 && l.sens == Sens.DEBIT) ls
    + sommeSi (fun l => l.classe == 3 && l.sens == Sens.DEBIT) ls
    + sommeSi (fun l => l.classe == 4 && l.sens == Sens.DEBIT
        && debutePar l.code_compte "342") ls
    + sommeSi (fun l => l.classe == 4 && l.sens == Sens.DEBIT
        && !debutePar l.code_compte "342") ls
    + sommeSi (fun l => l.classe == 5 && l.sens == Sens.DEBIT) ls
    = sommeSi (fun l => (l.classe == 2 || l.classe == 3 || l.classe == 4
        || l.classe == 5) && l.sens == Sens.DEBIT) ls := by
  induction ls with
  | nil => simp [sommeSi]
  | cons l ls ih =>
    simp only [sommeSi]
    have hpt : (if (l.classe == 2 && l.sens == Sens.DEBIT) then l.montant else 0)
        + (if (l.classe == 3 && l.sens == Sens.DEBIT) then l.montant else 0)
        + (if (l.classe == 4 && l.sens == Sens.DEBIT
            && debutePar l.code_compte "342") then l.montant else 0)
        + (if (l.classe == 4 && l.sens == Sens.DEBIT
            && !debutePar l.code_compte "342") then l.montant else 0)
        + (if (l.classe == 5 && l.sens == Sens.DEBIT) then l.montant else 0)
        = (if ((l.classe == 2 || l.classe == 3 || l.classe == 4 || l.classe == 5)
            && l.sens == Sens.DEBIT) then l.montant else 0) := by
      cases hs : l.sens
      case CREDIT => simp [hs]
      case DEBIT =>
        by_cases h2 : l.classe = 2
        · simp [h2, hs]
        by_cases h3 : l.classe = 3
        · simp [h3, hs]
        by_cases h4 : l.classe = 4
        · cases hp : debutePar l.code_compte "342" <;> simp [h4, hs, hp]
        by_cases h5 : l.classe = 5
        · simp [h5, hs]
        simp [h2, h3, h4, h5, hs]
    linarith [hpt, ih]

/-- What a successful `JeuDonnees` construction guarantees. -/
lemma mkJeuDonnees_ok {ls : List LigneCompte} {p e : String} {d : JeuDonnees}
    (h : mkJeuDonnees ls p e = Except.ok d) :
    d = ⟨ls, p, e⟩ ∧ ls ≠ [] ∧
      |total_debit ls - total_credit ls| ≤ epsilon := by
  unfold mkJeuDonnees at h
  split_ifs at h with h1 h2
  have hd : (⟨ls, p, e⟩ : JeuDonnees) = d := Except.ok.inj h
  refine ⟨hd.symm, ?_, ?_⟩
  · intro hnil
    rw [hnil] at h1
    exact h1 rfl
  · linarith [not_lt.mp h2]

/-- What a successful `LigneCompte` construction guarantees. -/
lemma mkLigneCompte_ok {code lib : String} {cl : ℤ} {s : Sens} {m : ℚ}
    {per : String} {l : LigneCompte}
    (h : mkLigneCompte code lib cl s m per = Except.ok l) :
    l = ⟨code, lib, cl, s, m, per⟩ ∧ LigneValide l := by
  unfold mkLigneCompte at h
  split_ifs at h with h1 h2 h3
  have hl : (⟨code, lib, cl, s, m, per⟩ : LigneCompte) = l := Except.ok.inj h
  subst hl
  push_neg at h1 h3
  exact ⟨rfl, h1.2, h2.1, h2.2, h3⟩


/-- C4: for every dataset, the financial report's `total_actif` equals the
patrimonial report's `actifs_economiques`, and both equal the sum of the DEBIT
entries whose class lies in {2, 3, 4, 5}. -/
theorem total_actif_egal_actifs_economiques (d : JeuDonnees) :
    (calculer_bilan_financier d).total_actif
      = (calculer_patrimoine d).actifs_economiques ∧
    (calculer_patrimoine d).actifs_economiques
      = sommeSi (fun l => (l.classe == 2 || l.classe == 3 || l.classe == 4
          || l.classe == 5) && l.sens == Sens.DEBIT) d.lignes := by
  refine ⟨?_, rfl⟩
  show sommeSi _ d.lignes + sommeSi _ d.lignes + sommeSi _ d.lignes
      + sommeSi _ d.lignes + sommeSi _ d.lignes = sommeSi _ d.lignes
  exact somme_actif d.lignes

/-- C10: for every dataset, `capital_social + reserves` of the financial report
equals `capitaux_propres_retraites` of the patrimonial report: the "111" and
"11 and not 111" prefix tests partition the class-1 CREDIT entries whose code
starts with "11". -/
theorem capital_plus_reserves_egal_retraites (d : JeuDonnees) :
    (calculer_bilan_financier d).capital_social
      + (calculer_bilan_financier d).reserves
      = (calculer_patrimoine d).capitaux_propres_retraites := by
  show sommeSi _ d.lignes + sommeSi _ d.lignes = sommeSi _ d.lignes
  exact somme_capital_reserves d.lignes

/-- C5: `JeuDonnees` construction fails exactly when the entry list is empty or
the debit/credit totals differ by more than epsilon; otherwise it returns the
dataset holding exactly the supplied entries. -/
theorem construction_jeu_donnees (ls : List LigneCompte) (p e : String) :
    (estErreur (mkJeuDonnees ls p e) = true ↔
      ls = [] ∨ |total_debit ls - total_credit ls| > epsilon) ∧
    (¬(ls = [] ∨ |total_debit ls - total_credit ls| > epsilon) →
      mkJeuDonnees ls p e = Except.ok ⟨ls, p, e⟩) := by
  by_cases h1 : ls = []
  · subst h1
    constructor
    · simp [mkJeuDonnees, estErreur]
    · intro hcon
      exact absurd (Or.inl rfl) hcon
  · have hne : ls.isEmpty = false := by
      cases ls
      · exact absurd rfl h1
      · rfl
    by_cases h2 : |total_debit ls - total_credit ls| > epsilon
    · simp [mkJeuDonnees, estErreur, hne, h1, h2]
    · simp [mkJeuDonnees, estErreur, hne, h1, h2]

/-- C5 witness: a balanced two-entry list is accepted with its entries kept,
and the empty list is rejected. -/
theorem construction_jeu_donnees_temoin :
    mkJeuDonnees [⟨"511", "Banque", 5, Sens.DEBIT, 100, "2024"⟩,
        ⟨"111", "Capital", 1, Sens.CREDIT, 100, "2024"⟩] "2024" "E"
      = Except.ok ⟨[⟨"511", "Banque", 5, Sens.DEBIT, 100, "2024"⟩,
        ⟨"111", "Capital", 1, Sens.CREDIT, 100, "2024"⟩], "2024", "E"⟩ ∧
    estErreur (mkJeuDonnees [] "2024" "E") = true :=
  ⟨(construction_jeu_donnees _ "2024" "E").2 (by
      rintro (h | h)
      · exact List.noConfusion h
      · revert h
        with_unfolding_all decide),
   (construction_jeu_donnees [] "2024" "E").1.mpr (Or.inl rfl)⟩

/-- C6: `LigneCompte` construction fails exactly when the code is shorter than
3 characters, the class is outside [1, 9], or the amount is negative; otherwise
it returns the entry with the given field values unchanged. -/
theorem construction_ligne_compte (code lib : String) (cl : ℤ) (s : Sens)
    (m : ℚ) (per : String) :
    (estErreur (mkLigneCompte code lib cl s m per) = true ↔
      code.length < 3 ∨ ¬(1 ≤ cl ∧ cl ≤ 9) ∨ m < 0) ∧
    (¬(code.length < 3 ∨ ¬(1 ≤ cl ∧ cl ≤ 9) ∨ m < 0) →
      mkLigneCompte code lib cl s m per = Except.ok ⟨code, lib, cl, s, m, per⟩) := by
  have hvide : code = "" → code.length < 3 := by
    intro h
    subst h
    decide
  by_cases h1 : code = "" ∨ code.length < 3
  · have hcourt : code.length < 3 := by
      rcases h1 with h | h
      · exact hvide h
      · exact h
    constructor
    · simp [mkLigneCompte, if_pos h1, estErreur, hcourt]
    · intro hcon
      exact absurd (Or.inl hcourt) hcon
  · push_neg at h1
    have hlen : ¬ code.length < 3 := not_lt.mpr h1.2
    by_cases h2 : 1 ≤ cl ∧ cl ≤ 9
    · by_cases h3 : m < 0
      · simp [mkLigneCompte, h1.1, hlen, h2, h3, estErreur]
      · simp [mkLigneCompte, h1.1, hlen, h2, h3, estErreur]
    · simp [mkLigneCompte, h1.1, hlen, h2, estErreur]

/-- C6 witness: a well-formed entry is accepted unchanged, a two-character code
is rejected. -/
theorem construction_ligne_compte_temoin :
    mkLigneCompte "512" "Banque" 5 Sens.DEBIT 100 "2024"
      = Except.ok ⟨"512", "Banque", 5, Sens.DEBIT, 100, "2024"⟩ ∧
    estErreur (mkLigneCompte "51" "Banque" 5 Sens.DEBIT 100 "2024") = true :=
  ⟨(construction_ligne_compte "512" "Banque" 5 Sens.DEBIT 100 "2024").2 (by
      rintro (h | h | h)
      · revert h
        decide
      · exact h (by decide)
      · revert h
        with_unfolding_all decide),
   (construction_ligne_compte "51" "Banque" 5 Sens.DEBIT 100 "2024").1.mpr
     (Or.inl (by decide))⟩

/-- C9: on the nine-entry scenario dataset (valid and balanced at 122000 per
side) the three calculators produce exactly the enumerated field values. -/
theorem scenario_rapports :
    mkJeuDonnees lignesScenario "2024" "Entreprise" = Except.ok donneesScenario ∧
    calculer_bilan_fonctionnel donneesScenario
      = ⟨30000, 110000, 80000, 35000, 12000, 23000, 57000, 0, 57000, "2024"⟩ ∧
    (calculer_bilan_financier donneesScenario).total_actif = 122000 ∧
    (calculer_bilan_financier donneesScenario).total_passif = 122000 ∧
    (calculer_bilan_financier donneesScenario).capital_social = 100000 ∧
    (calculer_bilan_financier donneesScenario).reserves = 10000 ∧
    (calculer_bilan_financier donneesScenario).capitaux_propres = 110000 ∧
    (calculer_patrimoine donneesScenario).actifs_economiques = 122000 ∧
    (calculer_patrimoine donneesScenario).dettes_financieres = 0 ∧
    (calculer_patrimoine donneesScenario).capitaux_propres_retraites = 110000 ∧
    (calculer_patrimoine donneesScenario).ratio_endettement = some 0 := by
  refine ⟨?_, ?_, ?_, ?_, ?_, ?_, ?_, ?_, ?_, ?_, ?_⟩ <;> with_unfolding_all rfl

/-- C2: the analyzer is not total.  `lignesPassifNul` is a valid, balanced
dataset of valid entries, yet analysing the financial report computed from it
reaches `capitaux_propres / total_passif` with `total_passif = 0` and raises
`ZeroDivisionError` — the zero guard tests `total_actif` instead of the
denominator. -/
theorem analyser_rapport_division_par_zero :
    (∀ l ∈ lignesPassifNul, LigneValide l) ∧
    mkJeuDonnees lignesPassifNul "2024" "Entreprise" = Except.ok donneesPassifNul ∧
    (calculer_bilan_financier donneesPassifNul).total_actif = 100 ∧
    (calculer_bilan_financier donneesPassifNul).total_passif = 0 ∧
    analyser_rapport (Rapport.financier (calculer_bilan_financier donneesPassifNul))
      = Except.error "ZeroDivisionError" := by
  refine ⟨?_, ?_, ?_, ?_, ?_⟩
  · intro l hl
    fin_cases hl <;> with_unfolding_all decide
  · with_unfolding_all rfl
  · with_unfolding_all rfl
  · with_unfolding_all rfl
  · with_unfolding_all rfl

/-- Under `EntreeFonctionnelle`, the gap between `frng` and
`bfr + tresorerie_nette` is exactly the credit/debit imbalance. -/
lemma somme_fonctionnel (ls : List LigneCompte)
    (h : ∀ l ∈ ls, EntreeFonctionnelle l) :
    sommeSi (fun l => (l.classe == 1 || l.classe == 5) && l.sens == Sens.CREDIT) ls
      - sommeSi (fun l => l.classe == 2 && l.sens == Sens.DEBIT) ls
      - ((sommeSi (fun l => (l.classe == 3 || l.classe == 4)
            && l.sens == Sens.DEBIT) ls
          - sommeSi (fun l => (l.classe == 3 || l.classe == 4)
            && l.sens == Sens.CREDIT) ls)
        + (sommeSi (fun l => l.classe == 5 && l.sens == Sens.DEBIT) ls
          - sommeSi (fun l => l.classe == 5 && l.sens == Sens.CREDIT) ls))
      = total_credit ls - total_debit ls := by
  unfold total_credit total_debit
  induction ls with
  | nil => simp [sommeSi]
  | cons l ls ih =>
    have hl := h l (List.mem_cons_self l ls)
    have ih' := ih (fun x hx => h x (List.mem_cons_of_mem l hx))
    obtain ⟨h15, hc1, hc2, hc5⟩ := hl
    simp only [sommeSi]
    have hpt : (if ((l.classe == 1 || l.classe == 5) && l.sens == Sens.CREDIT)
          then l.montant else 0)
        - (if (l.classe == 2 && l.sens == Sens.DEBIT) then l.montant else 0)
        - (((if ((l.classe == 3 || l.classe == 4) && l.sens == Sens.DEBIT)
            then l.montant else 0)
          - (if ((l.classe == 3 || l.classe == 4) && l.sens == Sens.CREDIT)
            then l.montant else 0))
        + ((if (l.classe == 5 && l.sens == Sens.DEBIT) then l.montant else 0)
          - (if (l.classe == 5 && l.sens == Sens.CREDIT) then l.montant else 0)))
        = (if l.sens == Sens.CREDIT then l.montant else 0)
          - (if l.sens == Sens.DEBIT then l.montant else 0) := by
      rcases h15 with h | h | h | h | h
      · have hs := hc1 h
        simp [h, hs]
      · have hs := hc2 h
        simp [h, hs]
      · cases hs : l.sens <;> simp [h, hs]
      · cases hs : l.sens <;> simp [h, hs]
      · have hs := hc5 h
        simp [h, hs]
    linarith [hpt, ih']

/-- C1 (amended): for every valid dataset that is exactly balanced and whose
entries satisfy `EntreeFonctionnelle`, the functional report satisfies
`frng = bfr + tresorerie_nette` exactly. -/
theorem frng_egal_bfr_plus_tresorerie (ls : List LigneCompte) (p e : String)
    (d : JeuDonnees) (hok : mkJeuDonnees ls p e = Except.ok d)
    (hbal : total_debit d.lignes = total_credit d.lignes)
    (hstr : ∀ l ∈ d.lignes, EntreeFonctionnelle l) :
    (calculer_bilan_fonctionnel d).frng
      = (calculer_bilan_fonctionnel d).bfr
        + (calculer_bilan_fonctionnel d).tresorerie_nette := by
  have key := somme_fonctionnel d.lignes hstr
  unfold total_credit total_debit at key hbal
  show sommeSi _ d.lignes - sommeSi _ d.lignes
      = (sommeSi _ d.lignes - sommeSi _ d.lignes)
        + (sommeSi _ d.lignes - sommeSi _ d.lignes)
  linarith [key, hbal]

/-- C1 witness: the scenario dataset satisfies all the hypotheses and the
identity. -/
theorem frng_egal_bfr_plus_tresorerie_temoin :
    (calculer_bilan_fonctionnel donneesScenario).frng
      = (calculer_bilan_fonctionnel donneesScenario).bfr
        + (calculer_bilan_fonctionnel donneesScenario).tresorerie_nette :=
  frng_egal_bfr_plus_tresorerie lignesScenario "2024" "Entreprise"
    donneesScenario (by with_unfolding_all rfl) (by with_unfolding_all rfl)
    (by decide)

/-- C1 counterexample: `lignesTresoCredit` is a valid, non-empty, exactly
balanced dataset, yet `frng = 100` while `bfr + tresorerie_nette = 0`: the
class-5 credit entry is counted in `ressources_stables` and again in
`tresorerie_passive`, so the identity fails. -/
theorem frng_contre_exemple :
    (∀ l ∈ lignesTresoCredit, LigneValide l) ∧
    mkJeuDonnees lignesTresoCredit "2024" "Entreprise"
      = Except.ok donneesTresoCredit ∧
    total_debit lignesTresoCredit = total_credit lignesTresoCredit ∧
    (calculer_bilan_fonctionnel donneesTresoCredit).frng = 100 ∧
    (calculer_bilan_fonctionnel donneesTresoCredit).bfr
      + (calculer_bilan_fonctionnel donneesTresoCredit).tresorerie_nette = 0 ∧
    (calculer_bilan_fonctionnel donneesTresoCredit).frng
      ≠ (calculer_bilan_fonctionnel donneesTresoCredit).bfr
        + (calculer_bilan_fonctionnel donneesTresoCredit).tresorerie_nette := by
  refine ⟨?_, ?_, ?_, ?_, ?_, ?_⟩
  · intro l hl
    fin_cases hl <;> with_unfolding_all decide
  · with_unfolding_all rfl
  · with_unfolding_all rfl
  · with_unfolding_all rfl
  · with_unfolding_all rfl
  · with_unfolding_all decide

/-- With classes 1–5 only, the class-6/7 result buckets are empty. -/
lemma somme_resultat_nul (ls : List LigneCompte) (s : Sens)
    (h : ∀ l ∈ ls, l.classe = 1 ∨ l.classe = 2 ∨ l.classe = 3 ∨ l.classe = 4
      ∨ l.classe = 5) :
    sommeSi (fun l => (l.classe == 6 || l.classe == 7) && l.sens == s) ls = 0 := by
  induction ls with
  | nil => simp [sommeSi]
  | cons l ls ih =>
    have hl := h l (List.mem_cons_self l ls)
    have ih' := ih (fun x hx => h x (List.mem_cons_of_mem l hx))
    simp only [sommeSi, ih', add_zero]
    rcases hl with h | h | h | h | h <;> simp [h]

/-- Under `EntreeFinanciere`, the actif side of the financial report sums every
DEBIT entry. -/
lemma somme_actif_total (ls : List LigneCompte)
    (h : ∀ l ∈ ls, EntreeFinanciere l) :
    sommeSi (fun l => (l.classe == 2 || l.classe == 3 || l.classe == 4
      || l.classe == 5) && l.sens == Sens.DEBIT) ls = total_debit ls := by
  unfold total_debit
  induction ls with
  | nil => simp [sommeSi]
  | cons l ls ih =>
    have hl := h l (List.mem_cons_self l ls)
    have ih' := ih (fun x hx => h x (List.mem_cons_of_mem l hx))
    obtain ⟨h15, hc1, -, -, -⟩ := hl
    simp only [sommeSi, ih']
    rcases h15 with h | h | h | h | h
    · have hs := hc1 h
      simp [h, hs]
    · simp [h]
    · simp [h]
    · simp [h]
    · simp [h]

/-- Under `EntreeFinanciere`, the passif buckets other than the result sum
every CREDIT entry. -/
lemma somme_passif_total (ls : List LigneCompte)
    (h : ∀ l ∈ ls, EntreeFinanciere l) :
    sommeSi (fun l => l.classe == 1 && l.sens == Sens.CREDIT
      && debutePar l.code_compte "111") ls
    + sommeSi (fun l => l.classe == 1 && l.sens == Sens.CREDIT
      && debutePar l.code_compte "11" && !debutePar l.code_compte "111") ls
    + sommeSi (fun l => l.classe == 1 && l.sens == Sens.CREDIT
      && debutePar l.code_compte "14") ls
    + sommeSi (fun l => l.classe == 4 && l.sens == Sens.CREDIT
      && debutePar l.code_compte "441") ls
    + sommeSi (fun l => l.classe == 4 && l.sens == Sens.CREDIT
      && !debutePar l.code_compte "441") ls
    + sommeSi (fun l => l.classe == 5 && l.sens == Sens.CREDIT) ls
    = total_credit ls := by
  unfold total_credit
  induction ls with
  | nil => simp [sommeSi]
  | cons l ls ih =>
    have hl := h l (List.mem_cons_self l ls)
    have ih' := ih (fun x hx => h x (List.mem_cons_of_mem l hx))
    obtain ⟨h15, hc1, hc2, hc3, hcode⟩ := hl
    simp only [sommeSi]
    have hpt : (if (l.classe == 1 && l.sens == Sens.CREDIT
          && debutePar l.code_compte "111") then l.montant else 0)
        + (if (l.classe == 1 && l.sens == Sens.CREDIT
          && debutePar l.code_compte "11" && !debutePar l.code_compte "111")
          then l.montant else 0)
        + (if (l.classe == 1 && l.sens == Sens.CREDIT
          && debutePar l.code_compte "14") then l.montant else 0)
        + (if (l.classe == 4 && l.sens == Sens.CREDIT
          && debutePar l.code_compte "441") then l.montant else 0)
        + (if (l.classe == 4 && l.sens == Sens.CREDIT
          && !debutePar l.code_compte "441") then l.montant else 0)
        + (if (l.classe == 5 && l.sens == Sens.CREDIT) then l.montant else 0)
        = (if l.sens == Sens.CREDIT then l.montant else 0) := by
      rcases h15 with h | h | h | h | h
      · have hs := hc1 h
        rcases hcode h with h11 | h14
        · cases hp : debutePar l.code_compte "111"
          · simp [h, hs, h11, hp, debutePar_11_non14 h11]
          · simp [h, hs, h11, hp, debutePar_11_non14 h11]
        · simp [h, hs, h14, debutePar_14_non11 h14, debutePar_14_non111 h14]
      · have hs := hc2 h
        simp [h, hs]
      · have hs := hc3 h
        simp [h, hs]
      · cases hs : l.sens
        case CREDIT =>
          cases hp : debutePar l.code_compte "441" <;> simp [h, hs, hp]
        case DEBIT => simp [h, hs]
      · cases hs : l.sens <;> simp [h, hs]
    linarith [hpt, ih']

/-- C3 (amended): for every valid dataset whose entries satisfy
`EntreeFinanciere`, the financial report satisfies
`|total_actif - total_passif| ≤ epsilon`. -/
theorem total_actif_proche_total_passif (ls : List LigneCompte) (p e : String)
    (d : JeuDonnees) (hok : mkJeuDonnees ls p e = Except.ok d)
    (hstr : ∀ l ∈ d.lignes, EntreeFinanciere l) :
    |(calculer_bilan_financier d).total_actif
      - (calculer_bilan_financier d).total_passif| ≤ epsilon := by
  obtain ⟨hd, -, hbal⟩ := mkJeuDonnees_ok hok
  have hlignes : d.lignes = ls := by rw [hd]
  rw [← hlignes] at hbal
  have h15 : ∀ l ∈ d.lignes, l.classe = 1 ∨ l.classe = 2 ∨ l.classe = 3
      ∨ l.classe = 4 ∨ l.classe = 5 := fun l hl => (hstr l hl).1
  have hA : (calculer_bilan_financier d).total_actif = total_debit d.lignes := by
    show sommeSi _ d.lignes + sommeSi _ d.lignes + sommeSi _ d.lignes
        + sommeSi _ d.lignes + sommeSi _ d.lignes = total_debit d.lignes
    rw [somme_actif d.lignes]
    exact somme_actif_total d.lignes hstr
  have hB : (calculer_bilan_financier d).total_passif
      = total_credit d.lignes := by
    show sommeSi _ d.lignes + sommeSi _ d.lignes
        + max 0 (sommeSi _ d.lignes - sommeSi _ d.lignes)
        + sommeSi _ d.lignes + sommeSi _ d.lignes + sommeSi _ d.lignes
        + sommeSi _ d.lignes = total_credit d.lignes
    rw [somme_resultat_nul d.lignes Sens.CREDIT h15,
      somme_resultat_nul d.lignes Sens.DEBIT h15]
    have hpassif := somme_passif_total d.lignes hstr
    have hmax : max (0 : ℚ) (0 - 0) = 0 := by norm_num
    rw [hmax]
    linarith [hpassif]
  rw [hA, hB]
  exact hbal

/-- C3 witness: the scenario dataset satisfies the hypotheses and the bound. -/
theorem total_actif_proche_total_passif_temoin :
    |(calculer_bilan_financier donneesScenario).total_actif
      - (calculer_bilan_financier donneesScenario).total_passif| ≤ epsilon :=
  total_actif_proche_total_passif lignesScenario "2024" "Entreprise"
    donneesScenario (by with_unfolding_all rfl) (by decide)

/-- C3 counterexample: `lignesStockCredit` is a valid, balanced dataset, yet
`total_actif = 50` and `total_passif = 0`, so the gap exceeds epsilon. -/
theorem total_actif_passif_contre_exemple :
    (∀ l ∈ lignesStockCredit, LigneValide l) ∧
    mkJeuDonnees lignesStockCredit "2024" "Entreprise"
      = Except.ok donneesStockCredit ∧
    (calculer_bilan_financier donneesStockCredit).total_actif = 50 ∧
    (calculer_bilan_financier donneesStockCredit).total_passif = 0 ∧
    ¬ |(calculer_bilan_financier donneesStockCredit).total_actif
      - (calculer_bilan_financier donneesStockCredit).total_passif| ≤ epsilon := by
  refine ⟨?_, ?_, ?_, ?_, ?_⟩
  · intro l hl
    fin_cases hl <;> with_unfolding_all decide
  · with_unfolding_all rfl
  · with_unfolding_all rfl
  · with_unfolding_all rfl
  · with_unfolding_all decide

/-- C7: for a valid dataset the patrimonial ratios never divide by zero: each
ratio is 0 when its denominator is 0 and the stated quotient otherwise. -/
theorem ratios_patrimoine (ls : List LigneCompte) (p e : String)
    (d : JeuDonnees) (hok : mkJeuDonnees ls p e = Except.ok d)
    (hval : ∀ l ∈ d.lignes, LigneValide l) :
    ((calculer_patrimoine d).actifs_economiques = 0 →
      (calculer_patrimoine d).ratio_endettement = some 0) ∧
    ((calculer_patrimoine d).actifs_economiques ≠ 0 →
      (calculer_patrimoine d).ratio_endettement
        = some ((calculer_patrimoine d).dettes_financieres
            / (calculer_patrimoine d).actifs_economiques)) ∧
    ((calculer_patrimoine d).dettes_financieres = 0 →
      (calculer_patrimoine d).ratio_solvabilite = some 0) ∧
    ((calculer_patrimoine d).dettes_financieres ≠ 0 →
      (calculer_patrimoine d).ratio_solvabilite
        = some ((calculer_patrimoine d).capitaux_propres_retraites
            / (calculer_patrimoine d).dettes_financieres)) := by
  have hm : ∀ l ∈ d.lignes, 0 ≤ l.montant := fun l hl => (hval l hl).2.2.2
  have hA := sommeSi_nonneg (fun l => (l.classe == 2 || l.classe == 3
    || l.classe == 4 || l.classe == 5) && l.sens == Sens.DEBIT) d.lignes hm
  have hD := sommeSi_nonneg (fun l => l.classe == 1 && l.sens == Sens.CREDIT
    && !debutePar l.code_compte "11") d.lignes hm
  simp only [calculer_patrimoine]
  refine ⟨?_, ?_, ?_, ?_⟩
  · intro h
    rw [h]
    norm_num
  · intro h
    rw [if_pos (lt_of_le_of_ne hA (Ne.symm h))]
  · intro h
    rw [h]
    norm_num
  · intro h
    rw [if_pos (lt_of_le_of_ne hD (Ne.symm h))]

/-- C7 witness: on the scenario dataset the endettement ratio is the quotient
0/122000 and the solvency ratio falls back to 0. -/
theorem ratios_patrimoine_temoin :
    (calculer_patrimoine donneesScenario).ratio_endettement
      = some ((calculer_patrimoine donneesScenario).dettes_financieres
          / (calculer_patrimoine donneesScenario).actifs_economiques) ∧
    (calculer_patrimoine donneesScenario).ratio_solvabilite = some 0 := by
  have h := ratios_patrimoine lignesScenario "2024" "Entreprise"
    donneesScenario (by with_unfolding_all rfl) (by decide)
  refine ⟨h.2.1 ?_, h.2.2.1 ?_⟩
  · rw [show (calculer_patrimoine donneesScenario).actifs_economiques = 122000
      from by with_unfolding_all rfl]
    norm_num
  · with_unfolding_all rfl

/-- C8 (amended): the analyzer emits the patrimonial-debt alert exactly when
`ratio_endettement` is a number greater than 0.5, and the solvency alert
exactly when `ratio_solvabilite` is a number that is nonzero (truthy) and less
than 1; a ratio equal to 0 or absent emits no alert. -/
theorem analyser_patrimoine_alertes (p : PatrimoineEntreprise) :
    ∃ a, analyser_rapport (Rapport.patrimoine p) = Except.ok a ∧
      ("Endettement patrimonial eleve" ∈ a.alertes ↔
        ∃ r, p.ratio_endettement = some r ∧ 1/2 < r) ∧
      ("Solvabilite compromise" ∈ a.alertes ↔
        ∃ r, p.ratio_solvabilite = some r ∧ r ≠ 0 ∧ r < 1) := by
  refine ⟨_, rfl, ?_, ?_⟩
  · rcases hre : p.ratio_endettement with _ | r
    · simp [estVraiOpt, hre]
    · by_cases h0 : r = 0
      · subst h0
        simp [estVraiOpt, hre]
      · by_cases hgt : 1/2 < r
        · simp [estVraiOpt, hre, h0, hgt]
        · simp [estVraiOpt, hre, h0, hgt]
  · rcases hrs : p.ratio_solvabilite with _ | r
    · simp [estVraiOpt, hrs]
    · by_cases h0 : r = 0
      · subst h0
        simp [estVraiOpt, hrs]
      · by_cases hlt : r < 1
        · simp [estVraiOpt, hrs, h0, hlt]
        · simp [estVraiOpt, hrs, h0, hlt]

/-- C8 counterexample: the patrimonial report of the scenario dataset has
`ratio_solvabilite = some 0 < 1`, yet the analyzer emits no alert at all —
Python truthiness of `0` skips the `< 1` comparison. -/
theorem analyser_patrimoine_contre_exemple :
    (calculer_patrimoine donneesScenario).ratio_solvabilite = some 0 ∧
    ((0 : ℚ) < 1) ∧
    analyser_rapport (Rapport.patrimoine (calculer_patrimoine donneesScenario))
      = Except.ok ⟨[], [], []⟩ := by
  refine ⟨?_, by norm_num, ?_⟩
  · with_unfolding_all rfl
  · with_unfolding_all rfl

end RapportFinancier

